import Mathlib

/-!
Verification of the PasswordValidatorDecorator repository (src/main.cpp).

The source defines an abstract `PasswordValidator` with a single virtual
`Validate(std::string_view) -> bool`, a terminal `LengthValidator(min_length)`,
a forwarding base `PasswordValidatorDecorator`, and three decorators
(`DigitPasswordValidator`, `CasePasswordValidator`, `SymbolPasswordValidator`)
that each call the inner validator first, short-circuit on false, and then
apply their own character-class check.

We embed the class hierarchy as an inductive type of validator chains and
`Validate` as a Bool-valued function over passwords modelled as `List Char`
(the test inputs are ASCII, where characters and storage units coincide).
-/

namespace PasswordValidatorDecorator

/-- ctype.h `islower` in the default C locale: ASCII a-z, codes 97..122. -/
def islower (c : Char) : Bool := decide (97 ≤ c.toNat ∧ c.toNat ≤ 122)

/-- ctype.h `isupper` in the default C locale: ASCII A-Z, codes 65..90. -/
def isupper (c : Char) : Bool := decide (65 ≤ c.toNat ∧ c.toNat ≤ 90)

/-- The digit set "0123456789" passed to find_first_of in DigitPasswordValidator. -/
def digitChars : List Char := "0123456789".toList

/-- The 17-character symbol set passed to find_first_of in SymbolPasswordValidator. -/
def symbolChars : List Char := "!@#$%^&*()\x7b\x7d[]?<>".toList

/-- std::string_view::find_first_of(set) != npos: some character of the
password belongs to the set. -/
def findFirstOf (password : List Char) (set : List Char) : Bool :=
  password.any (fun c => set.contains c)

/-- The scanning loop of CasePasswordValidator::Validate: walks the password
left to right carrying the has_lower / has_upper flags, stops early once both
are set, and classifies each character as lowercase first, else uppercase. -/
def caseScan : List Char → Bool → Bool → Bool × Bool
  | [], hasLower, hasUpper => (hasLower, hasUpper)
  | c :: rest, hasLower, hasUpper =>
    if hasUpper && hasLower then (hasLower, hasUpper)
    else if islower c then caseScan rest true hasUpper
    else if isupper c then caseScan rest hasLower true
    else caseScan rest hasLower hasUpper

/-- The class hierarchy of src/main.cpp as a chain: each decorator owns one
inner validator, the terminal node is a LengthValidator. -/
inductive PasswordValidator where
  | lengthValidator (minLength : Nat)
  | passwordValidatorDecorator (inner : PasswordValidator)
  | digitPasswordValidator (inner : PasswordValidator)
  | casePasswordValidator (inner : PasswordValidator)
  | symbolPasswordValidator (inner : PasswordValidator)
deriving DecidableEq

/-- The virtual Validate dispatch: each class body translated from
src/main.cpp. Decorators test the inner validator first and return false
without running their own check when it rejects. -/
def Validate : PasswordValidator → List Char → Bool
  | .lengthValidator minLength, password => decide (minLength ≤ password.length)
  | .passwordValidatorDecorator inner, password => Validate inner password
  | .digitPasswordValidator inner, password =>
    if !Validate inner password then false
    else findFirstOf password digitChars
  | .casePasswordValidator inner, password =>
    if !Validate inner password then false
    else
      let flags := caseScan password false false
      flags.1 && flags.2
  | .symbolPasswordValidator inner, password =>
    if !Validate inner password then false
    else findFirstOf password symbolChars

/-- The three concrete decorator kinds of the source. -/
inductive DecoratorKind where
  | digitKind
  | caseKind
  | symbolKind
deriving DecidableEq

/-- Wrap an inner validator with the decorator of the given kind. -/
def decorate : DecoratorKind → PasswordValidator → PasswordValidator
  | .digitKind, v => .digitPasswordValidator v
  | .caseKind, v => .casePasswordValidator v
  | .symbolKind, v => .symbolPasswordValidator v

/-- Each decorator's own local predicate on the password, independent of the
inner validator. -/
def localCheck : DecoratorKind → List Char → Bool
  | .digitKind, p => findFirstOf p digitChars
  | .caseKind, p => (caseScan p false false).1 && (caseScan p false false).2
  | .symbolKind, p => findFirstOf p symbolChars

/-- Build a chain of decorators (outermost first) over a terminal LengthValidator. -/
def buildChain : List DecoratorKind → Nat → PasswordValidator
  | [], n => .lengthValidator n
  | k :: ks, n => decorate k (buildChain ks n)

/-- Does the chain contain at least one of the three concrete decorators? -/
def hasDecoratorRule : PasswordValidator → Bool
  | .lengthValidator _ => false
  | .passwordValidatorDecorator inner => hasDecoratorRule inner
  | .digitPasswordValidator _ => true
  | .casePasswordValidator _ => true
  | .symbolPasswordValidator _ => true

/- ## Helper lemmas -/

theorem islower_not_isupper (c : Char) (h : islower c = true) : isupper c = false := by
  simp only [islower, isupper, decide_eq_true_eq] at h ⊢
  simp only [decide_eq_false_iff_not]
  omega

theorem caseScan_eq (p : List Char) (hl hu : Bool) :
    caseScan p hl hu = (hl || p.any islower, hu || p.any isupper) := by
  induction p generalizing hl hu with
  | nil => simp [caseScan]
  | cons c rest ih =>
    by_cases hlo : islower c = true
    · have hup : isupper c = false := islower_not_isupper c hlo
      cases hl <;> cases hu <;>
        simp [caseScan, List.any_cons, hlo, hup, ih]
    · by_cases hup : isupper c = true
      · cases hl <;> cases hu <;>
          simp [caseScan, List.any_cons, hlo, hup, ih]
      · cases hl <;> cases hu <;>
          simp [caseScan, List.any_cons, hlo, hup, ih]

theorem validate_decorate_eq (k : DecoratorKind) (V : PasswordValidator)
    (p : List Char) :
    Validate (decorate k V) p = (Validate V p && localCheck k p) := by
  cases k <;> cases h : Validate V p <;> simp [decorate, Validate, localCheck, h]

theorem validate_buildChain (ds : List DecoratorKind) (n : Nat) (p : List Char) :
    Validate (buildChain ds n) p
      = (decide (n ≤ p.length) && ds.all (fun k => localCheck k p)) := by
  induction ds with
  | nil => simp [buildChain, Validate]
  | cons k ks ih =>
    rw [buildChain, validate_decorate_eq, ih, List.all_cons]
    cases decide (n ≤ p.length) <;> cases localCheck k p <;>
      cases ks.all (fun d => localCheck d p) <;> rfl

theorem perm_all_eq {α : Type} {l1 l2 : List α} (h : l1.Perm l2) (f : α → Bool) :
    l1.all f = l2.all f := by
  induction h with
  | nil => rfl
  | cons x _ ih => simp [List.all_cons, ih]
  | swap x y l =>
    simp only [List.all_cons]
    cases f x <;> cases f y <;> rfl
  | trans _ _ ih1 ih2 => rw [ih1, ih2]

theorem hasDecoratorRule_rejects_empty (W : PasswordValidator)
    (h : hasDecoratorRule W = true) : Validate W [] = false := by
  induction W with
  | lengthValidator n => simp [hasDecoratorRule] at h
  | passwordValidatorDecorator inner ih =>
    simp only [hasDecoratorRule] at h
    simpa [Validate] using ih h
  | digitPasswordValidator inner _ =>
    cases hv : Validate inner [] <;> simp [Validate, findFirstOf, hv]
  | casePasswordValidator inner _ =>
    cases hv : Validate inner [] <;> simp [Validate, caseScan, hv]
  | symbolPasswordValidator inner _ =>
    cases hv : Validate inner [] <;> simp [Validate, findFirstOf, hv]

/- ## Claim theorems -/

/-- C1: CasePasswordValidator accepts exactly when the inner validator accepts
and the password contains at least one ASCII lowercase letter and at least one
ASCII uppercase letter; the decision depends only on the existence of such
characters, not their position or count. -/
theorem caseRule_validate_characterization (V : PasswordValidator) (p : List Char) :
    Validate (.casePasswordValidator V) p
      = (Validate V p && p.any islower && p.any isupper) := by
  cases h : Validate V p
  · simp [Validate, h]
  · have hstep : Validate (.casePasswordValidator V) p
        = ((caseScan p false false).1 && (caseScan p false false).2) := by
      simp [Validate, h]
    rw [hstep, caseScan_eq]
    simp

/-- C2: SymbolPasswordValidator accepts exactly when the inner validator
accepts and the password contains a character of the literal 17-character set
!@#$%^&*()\x7b\x7d[]?<>; characters outside that set, such as underscore,
plus, tilde, minus and equals, never satisfy the symbol check. -/
theorem symbolRule_validate_characterization (V : PasswordValidator) (p : List Char) :
    (Validate (.symbolPasswordValidator V) p
        = (Validate V p && p.any (fun c => symbolChars.contains c)))
      ∧ symbolChars.length = 17
      ∧ symbolChars.contains '_' = false
      ∧ symbolChars.contains '+' = false
      ∧ symbolChars.contains '~' = false
      ∧ symbolChars.contains '-' = false
      ∧ symbolChars.contains '=' = false := by
  refine ⟨?_, by decide, by decide, by decide, by decide, by decide, by decide⟩
  cases h : Validate V p <;> simp [Validate, findFirstOf, h]

/-- C3: LengthValidator accepts exactly the passwords with at least minLength
units; a password of exactly minLength units is accepted, and minimum 0
accepts every password including the empty one. -/
theorem lengthRule_validate_contract (minLength : Nat) (p : List Char) :
    (Validate (.lengthValidator minLength) p = true ↔ minLength ≤ p.length)
      ∧ Validate (.lengthValidator p.length) p = true
      ∧ Validate (.lengthValidator 0) p = true := by
  refine ⟨?_, ?_, ?_⟩ <;> simp [Validate]

/-- C4: DigitPasswordValidator accepts exactly when the inner validator
accepts and the password contains a decimal digit; when the inner validator
rejects, the whole check rejects (the digit scan is short-circuited away). -/
theorem digitRule_validate_contract (V : PasswordValidator) (p : List Char) :
    (Validate (.digitPasswordValidator V) p
        = (Validate V p && p.any (fun c => digitChars.contains c)))
      ∧ (Validate V p = false → Validate (.digitPasswordValidator V) p = false) := by
  constructor
  · cases h : Validate V p <;> simp [Validate, findFirstOf, h]
  · intro h
    simp [Validate, h]

/-- C4 witness: the digit decorator over LengthValidator(5) rejects the empty
password because the inner validator rejects. -/
theorem digitRule_validate_contract_witness :
    Validate (.digitPasswordValidator (.lengthValidator 5)) ([] : List Char) = false :=
  (digitRule_validate_contract (.lengthValidator 5) []).2 (by decide)

/-- C5: every decorator composition equals the conjunction of the inner
validator's verdict with the decorator's own local predicate. -/
theorem decorator_conjunction (k : DecoratorKind) (V : PasswordValidator)
    (p : List Char) :
    Validate (decorate k V) p = (Validate V p && localCheck k p) :=
  validate_decorate_eq k V p

/-- C6: two chains built from permuted lists of decorators over the same
terminal LengthValidator return the same boolean on every password. -/
theorem decorator_order_irrelevant (ds1 ds2 : List DecoratorKind)
    (h : ds1.Perm ds2) (n : Nat) (p : List Char) :
    Validate (buildChain ds1 n) p = Validate (buildChain ds2 n) p := by
  rw [validate_buildChain, validate_buildChain,
    perm_all_eq h (fun k => localCheck k p)]

/-- C6 witness: Digit then Symbol over Length(2) agrees with Symbol then Digit
on the password a1!. -/
theorem decorator_order_irrelevant_witness :
    Validate (buildChain [DecoratorKind.digitKind, DecoratorKind.symbolKind] 2)
        ['a', '1', '!']
      = Validate (buildChain [DecoratorKind.symbolKind, DecoratorKind.digitKind] 2)
        ['a', '1', '!'] :=
  decorator_order_irrelevant [DecoratorKind.digitKind, DecoratorKind.symbolKind]
    [DecoratorKind.symbolKind, DecoratorKind.digitKind] (by decide) 2 ['a', '1', '!']

/-- C7: if a decorated validator accepts a password then the inner validator
accepts it: removing a decorator never turns acceptance into rejection. -/
theorem decorator_removal_monotone (k : DecoratorKind) (V : PasswordValidator)
    (p : List Char) (h : Validate (decorate k V) p = true) :
    Validate V p = true := by
  rw [validate_decorate_eq] at h
  simp only [Bool.and_eq_true] at h
  exact h.1

/-- C7 witness: the digit decorator over Length(0) accepts the password 1,
hence so does Length(0). -/
theorem decorator_removal_monotone_witness :
    Validate (.lengthValidator 0) ['1'] = true :=
  decorator_removal_monotone DecoratorKind.digitKind (.lengthValidator 0) ['1']
    (by decide)

/-- C8: the concrete end-to-end scenarios of the inline test and the spec
table hold on the embedded Validate. -/
theorem end_to_end_scenarios :
    Validate
        (.symbolPasswordValidator (.casePasswordValidator
          (.digitPasswordValidator (.lengthValidator 8)))) "Abc123!@#".toList = true
      ∧ Validate
        (.symbolPasswordValidator (.casePasswordValidator
          (.digitPasswordValidator (.lengthValidator 8)))) "Abc123567".toList = false
      ∧ Validate (.lengthValidator 0) "".toList = true
      ∧ Validate (.symbolPasswordValidator (.lengthValidator 0))
          "hello_world+".toList = false
      ∧ Validate (.symbolPasswordValidator (.lengthValidator 0))
          "hello?".toList = true := by
  refine ⟨?_, ?_, ?_, ?_, ?_⟩ <;> decide

/-- C9: the bare PasswordValidatorDecorator forwards to its inner validator
unchanged: it adds no check and is an identity of composition. -/
theorem decorator_base_identity (V : PasswordValidator) (p : List Char) :
    Validate (.passwordValidatorDecorator V) p = Validate V p := rfl

/-- C10: each of the three concrete decorators rejects the empty password for
every inner validator, and any chain containing at least one of them rejects
the empty password. -/
theorem decorators_reject_empty (V : PasswordValidator) :
    Validate (.digitPasswordValidator V) [] = false
      ∧ Validate (.casePasswordValidator V) [] = false
      ∧ Validate (.symbolPasswordValidator V) [] = false
      ∧ (∀ W : PasswordValidator, hasDecoratorRule W = true → Validate W [] = false) := by
  refine ⟨?_, ?_, ?_, fun W h => hasDecoratorRule_rejects_empty W h⟩
  · exact hasDecoratorRule_rejects_empty (.digitPasswordValidator V) rfl
  · exact hasDecoratorRule_rejects_empty (.casePasswordValidator V) rfl
  · exact hasDecoratorRule_rejects_empty (.symbolPasswordValidator V) rfl

/-- C10 witness: the symbol decorator over Length(0) rejects the empty
password even though its inner chain accepts it. -/
theorem decorators_reject_empty_witness :
    Validate (.symbolPasswordValidator (.lengthValidator 0)) ([] : List Char) = false :=
  (decorators_reject_empty (.lengthValidator 0)).2.2.2
    (.symbolPasswordValidator (.lengthValidator 0)) (by decide)

end PasswordValidatorDecorator
